import Mathlib

/-!
Verification development for the voucher-aggregation widget.

The repository holds two Svelte page variants:
site A scrapes elements carrying a clipboard code attribute and keeps an
explicit persisted hidden-code list; site B scrapes article elements, resolves
coupon codes through a per-article detail API, and keeps a per-entry cache
with a 2-month TTL and a per-entry hidden flag.

The definitions below are shallow embeddings of the script sections of both
variants: web storage restricted to the relevant namespaces is a finite
association list, times are epoch milliseconds as naturals, and the JS string
operations used by the code (startsWith, includes, replace of non-alphanumeric
characters, falsy defaulting with the or-operator) are modelled on character
data.
-/

/-- Namespace of every cache entry key in web storage (source constant CACHE_KEY). -/
def CACHE_KEY : String := "grabfood-voucher-cache"

/-- Two months in milliseconds (source constant CACHE_DURATION). -/
def CACHE_DURATION : Nat := 2 * 30 * 24 * 60 * 60 * 1000

/-- Sentinel coupon codes that must never be offered as actionable codes
(source constant EXCLUDED_CODES). -/
def EXCLUDED_CODES : List String := ["NoCodeRequired", "NoCouponRequired"]

/-- Membership test in the sentinel list (source function shouldExcludeCode). -/
def shouldExcludeCode (code : String) : Bool := EXCLUDED_CODES.contains code

/-- Payload of a detail fetch (source interface VoucherData). -/
structure VoucherData where
  code : Option String
  cta : Option String := none
  headline : Option String := none
  description : Option String := none
  merchantName : Option String := none
  deriving DecidableEq

/-- One cache entry: the payload plus expiry epoch milliseconds and the
hidden flag (source interface CachedVoucherData; an absent hidden field in
stored JSON behaves exactly like false everywhere, so it is a Bool here). -/
structure CachedVoucherData extends VoucherData where
  expire : Nat
  hidden : Bool := false
  deriving DecidableEq

/-- Web storage restricted to string keys mapping to well-typed cache
entries, as a first-match association list. -/
abbrev CacheStore := List (String × CachedVoucherData)

/-- localStorage.getItem on the modelled store. -/
def storeGet (s : CacheStore) (k : String) : Option CachedVoucherData := s.lookup k

/-- localStorage.setItem on the modelled store: replaces any entry at the key. -/
def storeSet (s : CacheStore) (k : String) (v : CachedVoucherData) : CacheStore :=
  (k, v) :: s.filter (fun e => e.1 != k)

/-- localStorage.removeItem on the modelled store. -/
def storeRemove (s : CacheStore) (k : String) : CacheStore :=
  s.filter (fun e => e.1 != k)

/-- Storage key of one article id (source template string CACHE_KEY-articleId). -/
def cacheKey (id : String) : String := CACHE_KEY ++ "-" ++ id

/-- Source function getCachedVoucherDataFull: returns the full entry, or none
when the key is absent or the entry has expired; an expired entry is removed
from the store as a side effect, so the new store is returned alongside. -/
def getCachedVoucherDataFull (s : CacheStore) (now : Nat) (id : String) :
    Option CachedVoucherData × CacheStore :=
  match storeGet s (cacheKey id) with
  | none => (none, s)
  | some c =>
      if now > c.expire then (none, storeRemove s (cacheKey id))
      else (some c, s)

/-- Source function getCachedVoucherData: like the full getter but projects
the entry to its payload fields. -/
def getCachedVoucherData (s : CacheStore) (now : Nat) (id : String) :
    Option VoucherData × CacheStore :=
  match storeGet s (cacheKey id) with
  | none => (none, s)
  | some c =>
      if now > c.expire then (none, storeRemove s (cacheKey id))
      else (some c.toVoucherData, s)

/-- Source function setCachedVoucherData: reads the existing entry through the
full getter (so an expired entry counts as absent), then writes the payload
with a renewed expiry and the preserved hidden flag defaulting to false. -/
def setCachedVoucherData (s : CacheStore) (now : Nat) (id : String)
    (data : VoucherData) : CacheStore :=
  let existing := (getCachedVoucherDataFull s now id).1
  let s1 := (getCachedVoucherDataFull s now id).2
  storeSet s1 (cacheKey id)
    { toVoucherData := data
      expire := now + CACHE_DURATION
      hidden := (existing.map (fun c => c.hidden)).getD false }

/-- Source function hideVoucher: guarded by membership in the in-memory
hidden list; otherwise reads the existing entry (synthesizing a minimal one
with a null code when absent), rewrites it with hidden set and a renewed
expiry, and appends the id to the hidden list. -/
def hideVoucher (s : CacheStore) (hiddenVouchers : List String) (now : Nat)
    (id : String) : CacheStore × List String :=
  if hiddenVouchers.contains id then (s, hiddenVouchers)
  else
    let existing := (getCachedVoucherDataFull s now id).1
    let s1 := (getCachedVoucherDataFull s now id).2
    let cachedData : CachedVoucherData :=
      match existing with
      | some c => c
      | none => { code := none, expire := now + CACHE_DURATION, hidden := false }
    let updated : CachedVoucherData :=
      { cachedData with expire := now + CACHE_DURATION, hidden := true }
    (storeSet s1 (cacheKey id) updated, hiddenVouchers ++ [id])

/-- Boolean test that a string starts with another, on character data; models
the JS startsWith used by clearVoucherCache over the storage keys. -/
def jsStartsWith (s pre : String) : Bool := List.isPrefixOf pre.data s.data

/-- Source function clearVoucherCache: removes every storage key under the
cache namespace. -/
def clearVoucherCache (s : CacheStore) : CacheStore :=
  s.filter (fun e => !(jsStartsWith e.1 CACHE_KEY))

/-! ### Association-list helper lemmas -/

theorem lookup_filter_out {α : Type} (s : List (String × α)) (k : String) :
    (s.filter (fun e => e.1 != k)).lookup k = none := by
  induction s with
  | nil => rfl
  | cons e t ih =>
      obtain ⟨k1, v1⟩ := e
      by_cases h : k1 = k
      · rw [List.filter_cons, if_neg (by simp [h])]
        exact ih
      · have hk : (k == k1) = false := by
          simp only [beq_eq_false_iff_ne, ne_eq]
          exact fun hkk => h hkk.symm
        rw [List.filter_cons, if_pos (by simpa [bne_iff_ne] using h),
            List.lookup_cons, hk]
        exact ih

theorem lookup_filter_keep {α : Type} (s : List (String × α)) (k k2 : String)
    (h : k2 ≠ k) :
    (s.filter (fun e => e.1 != k)).lookup k2 = s.lookup k2 := by
  induction s with
  | nil => rfl
  | cons e t ih =>
      obtain ⟨k1, v1⟩ := e
      by_cases he : k1 = k
      · have hk2 : (k2 == k1) = false := by
          simp only [beq_eq_false_iff_ne, ne_eq, he]
          exact h
        rw [List.filter_cons, if_neg (by simp [he]), ih, List.lookup_cons, hk2]
      · rw [List.filter_cons, if_pos (by simpa [bne_iff_ne] using he),
            List.lookup_cons, List.lookup_cons]
        cases hke : (k2 == k1) with
        | true => rfl
        | false => exact ih

theorem storeGet_storeSet_self (s : CacheStore) (k : String) (v : CachedVoucherData) :
    storeGet (storeSet s k v) k = some v := by
  simp [storeGet, storeSet, List.lookup_cons_self]

theorem storeGet_storeSet_ne (s : CacheStore) (k k2 : String) (v : CachedVoucherData)
    (h : k2 ≠ k) : storeGet (storeSet s k v) k2 = storeGet s k2 := by
  simp only [storeGet, storeSet]
  rw [List.lookup_cons]
  rw [show (k2 == k) = false by simp [beq_iff_eq, h]]
  exact lookup_filter_keep s k k2 h

theorem storeGet_storeRemove_self (s : CacheStore) (k : String) :
    storeGet (storeRemove s k) k = none := by
  simp only [storeGet, storeRemove]
  exact lookup_filter_out s k

/-- The projecting getter has exactly the same store side effect as the full
getter, so one read operation models both. -/
theorem getCachedVoucherData_store_eq (s : CacheStore) (now : Nat) (id : String) :
    (getCachedVoucherData s now id).2 = (getCachedVoucherDataFull s now id).2 := by
  unfold getCachedVoucherData getCachedVoucherDataFull
  cases storeGet s (cacheKey id) with
  | none => rfl
  | some c =>
      by_cases h : now > c.expire
      · simp [h]
      · simp [h]

/-- Claim C1: for every article id and call time, both cache read operations
return absent exactly when no entry is stored for the id or the call time is
past the stored expiry, and in the expired case the read deletes the stale
entry from the store. -/
theorem cache_get_absent_iff (s : CacheStore) (now : Nat) (id : String) :
    ((getCachedVoucherDataFull s now id).1 = none ↔
      storeGet s (cacheKey id) = none ∨
        ∃ c, storeGet s (cacheKey id) = some c ∧ now > c.expire) ∧
    ((getCachedVoucherData s now id).1 = none ↔
      storeGet s (cacheKey id) = none ∨
        ∃ c, storeGet s (cacheKey id) = some c ∧ now > c.expire) ∧
    (∀ c, storeGet s (cacheKey id) = some c → now > c.expire →
      storeGet (getCachedVoucherDataFull s now id).2 (cacheKey id) = none ∧
      storeGet (getCachedVoucherData s now id).2 (cacheKey id) = none) := by
  refine ⟨?_, ?_, ?_⟩
  · unfold getCachedVoucherDataFull
    cases hg : storeGet s (cacheKey id) with
    | none => simp [hg]
    | some c =>
        by_cases h : now > c.expire
        · simp [h, hg]
        · simp [h, hg]
  · unfold getCachedVoucherData
    cases hg : storeGet s (cacheKey id) with
    | none => simp [hg]
    | some c =>
        by_cases h : now > c.expire
        · simp [h, hg]
        · simp [h, hg]
  · intro c hc hexp
    unfold getCachedVoucherDataFull getCachedVoucherData
    rw [hc]
    simp only [hexp, if_true]
    exact ⟨storeGet_storeRemove_self s (cacheKey id),
           storeGet_storeRemove_self s (cacheKey id)⟩

/-- Witness for C1 at a concrete expired entry: the read is absent and the
stale entry is gone afterwards. -/
theorem cache_get_absent_iff_witness :
    (getCachedVoucherDataFull
        [(cacheKey "a", { code := some "X", expire := 5, hidden := false })]
        10 "a").1 = none ∧
    storeGet (getCachedVoucherDataFull
        [(cacheKey "a", { code := some "X", expire := 5, hidden := false })]
        10 "a").2 (cacheKey "a") = none := by
  have h := cache_get_absent_iff
      [(cacheKey "a", { code := some "X", expire := 5, hidden := false })] 10 "a"
  refine ⟨h.1.mpr (Or.inr ⟨{ code := some "X", expire := 5, hidden := false },
      by decide, by decide⟩), ?_⟩
  exact (h.2.2 { code := some "X", expire := 5, hidden := false }
      (by decide) (by decide)).1

/-! ### Claim C2: write-then-read round trip -/

/-- Counterexample for C2 as stated: when the prior entry exists but has
already expired at write time, the write does not preserve that entry's
stored hidden flag (true here) but resets it to false, because the write
reads the prior entry through the lazily-expiring getter. -/
theorem set_preserves_hidden_counterexample :
    storeGet [(cacheKey "a", { code := none, expire := 5, hidden := true })]
        (cacheKey "a") =
      some { code := none, expire := 5, hidden := true } ∧
    (storeGet
        (setCachedVoucherData
          [(cacheKey "a", { code := none, expire := 5, hidden := true })]
          10 "a" { code := some "X" })
        (cacheKey "a")).map (fun c => c.hidden) = some false := by
  constructor
  · decide
  · decide

/-- Claim C2 (amended): writing a payload and then reading before the renewed
expiry returns exactly that payload; the written entry's expiry is reset to
the write time plus two months, and its hidden flag equals the prior stored
flag when a prior entry exists and is unexpired at write time, and false when
there is no prior entry or the prior entry has expired. -/
theorem set_then_get_roundtrip (s : CacheStore) (now nowR : Nat) (id : String)
    (data : VoucherData) (h : nowR ≤ now + CACHE_DURATION) :
    (getCachedVoucherData (setCachedVoucherData s now id data) nowR id).1 =
      some data ∧
    ∃ c, storeGet (setCachedVoucherData s now id data) (cacheKey id) = some c ∧
      c.toVoucherData = data ∧
      c.expire = now + CACHE_DURATION ∧
      c.hidden = (match storeGet s (cacheKey id) with
                  | none => false
                  | some p => if now > p.expire then false else p.hidden) := by
  have hset : storeGet (setCachedVoucherData s now id data) (cacheKey id) =
      some { toVoucherData := data
             expire := now + CACHE_DURATION
             hidden := (((getCachedVoucherDataFull s now id).1).map
                          (fun c => c.hidden)).getD false } := by
    unfold setCachedVoucherData
    exact storeGet_storeSet_self _ _ _
  constructor
  · have hnot : ¬ nowR > now + CACHE_DURATION := Nat.not_lt.mpr h
    unfold getCachedVoucherData
    rw [hset]
    simp [hnot]
  · refine ⟨_, hset, rfl, rfl, ?_⟩
    unfold getCachedVoucherDataFull
    cases hg : storeGet s (cacheKey id) with
    | none => rfl
    | some p =>
        by_cases hexp : now > p.expire
        · simp [hexp]
        · simp [hexp]

/-- Witness for C2 (amended) at a concrete unexpired hidden entry: the
payload round-trips and the hidden flag survives the write. -/
theorem set_then_get_roundtrip_witness :
    (getCachedVoucherData
        (setCachedVoucherData
          [(cacheKey "a", { code := none, expire := 50, hidden := true })]
          10 "a" { code := some "X" })
        20 "a").1 = some { code := some "X" } ∧
    ∃ c, storeGet
        (setCachedVoucherData
          [(cacheKey "a", { code := none, expire := 50, hidden := true })]
          10 "a" { code := some "X" })
        (cacheKey "a") = some c ∧
      c.toVoucherData = { code := some "X" } ∧
      c.expire = 10 + CACHE_DURATION ∧
      c.hidden = (match storeGet
          [(cacheKey "a", { code := none, expire := 50, hidden := true })]
          (cacheKey "a") with
        | none => false
        | some p => if 10 > p.expire then false else p.hidden) :=
  set_then_get_roundtrip
    [(cacheKey "a", { code := none, expire := 50, hidden := true })]
    10 20 "a" { code := some "X" } (by decide)

/-! ### Claim C3: persistence of the hidden flag under reads and writes -/

/-- One cache operation of the claim: a read (either getter, both have the
same store effect) or a write, each at some call time. -/
inductive CacheOp where
  | read (now : Nat)
  | write (now : Nat) (data : VoucherData)
  deriving DecidableEq

/-- Call time of a cache operation. -/
def opTime : CacheOp → Nat
  | .read now => now
  | .write now _ => now

/-- Store effect of one cache operation on one article id. -/
def applyOp (id : String) (s : CacheStore) : CacheOp → CacheStore
  | .read now => (getCachedVoucherDataFull s now id).2
  | .write now data => setCachedVoucherData s now id data

/-- Store effect of a sequence of cache operations. -/
def applyOps (id : String) (s : CacheStore) : List CacheOp → CacheStore
  | [] => s
  | op :: rest => applyOps id (applyOp id s op) rest

/-- Timing discipline of the amended claim: every operation happens no later
than the expiry the entry carries when that operation runs. -/
def timelyOps (id : String) (s : CacheStore) : List CacheOp → Bool
  | [] => true
  | op :: rest =>
      (match storeGet s (cacheKey id) with
       | some c => decide (opTime op ≤ c.expire)
       | none => true) && timelyOps id (applyOp id s op) rest

/-- A hidden entry survives any timely sequence of reads and writes with its
hidden flag intact. -/
theorem hidden_preserved (ops : List CacheOp) :
    ∀ (s : CacheStore) (id : String) (c : CachedVoucherData),
      storeGet s (cacheKey id) = some c → c.hidden = true →
      timelyOps id s ops = true →
      ∃ cFin, storeGet (applyOps id s ops) (cacheKey id) = some cFin ∧
        cFin.hidden = true := by
  induction ops with
  | nil =>
      intro s id c hc hh _
      exact ⟨c, hc, hh⟩
  | cons op rest ih =>
      intro s id c hc hh ht
      unfold timelyOps at ht
      rw [hc] at ht
      rw [Bool.and_eq_true] at ht
      have hle : opTime op ≤ c.expire := of_decide_eq_true ht.1
      have hnot : ¬ opTime op > c.expire := Nat.not_lt.mpr hle
      cases op with
      | read now =>
          have hnow : ¬ now > c.expire := by simpa [opTime] using hnot
          have happ : applyOp id s (CacheOp.read now) = s := by
            simp [applyOp, getCachedVoucherDataFull, hc, hnow]
          unfold applyOps
          rw [happ]
          rw [happ] at ht
          exact ih s id c hc hh ht.2
      | write now data =>
          have hnow : ¬ now > c.expire := by simpa [opTime] using hnot
          have hfull : getCachedVoucherDataFull s now id = (some c, s) := by
            simp [getCachedVoucherDataFull, hc, hnow]
          have happ : applyOp id s (CacheOp.write now data) =
              storeSet s (cacheKey id)
                { toVoucherData := data
                  expire := now + CACHE_DURATION
                  hidden := c.hidden } := by
            simp [applyOp, setCachedVoucherData, hfull]
          unfold applyOps
          rw [happ]
          rw [happ] at ht
          exact ih _ id
            { toVoucherData := data
              expire := now + CACHE_DURATION
              hidden := c.hidden }
            (storeGet_storeSet_self _ _ _) hh ht.2

/-- Counterexample for C3 as stated: hide an id at time 0, then write its
payload one millisecond after the renewed expiry; the resulting entry has
hidden set to false although neither an unhide nor a cache purge happened. -/
theorem hide_then_write_clears_hidden_counterexample :
    (storeGet
        (setCachedVoucherData (hideVoucher [] [] 0 "a").1
          (CACHE_DURATION + 1) "a" { code := some "X" })
        (cacheKey "a")).map (fun c => c.hidden) = some false := by
  decide

/-- Claim C3 (amended): after hideVoucher marks an id hidden, every sequence
of cache reads and writes in which each operation runs no later than the
entry's current expiry leaves an entry whose hidden flag is still true; a
write that happens after the entry has expired resets the flag to false. -/
theorem hide_then_ops_keep_hidden (s : CacheStore) (hv : List String)
    (now : Nat) (id : String) (ops : List CacheOp)
    (hnew : hv.contains id = false)
    (ht : timelyOps id (hideVoucher s hv now id).1 ops = true) :
    ∃ c, storeGet (applyOps id (hideVoucher s hv now id).1 ops) (cacheKey id) =
        some c ∧ c.hidden = true := by
  have hguard : ¬ (hv.contains id = true) := by
    rw [hnew]
    exact Bool.false_ne_true
  have hput : ∃ u, storeGet (hideVoucher s hv now id).1 (cacheKey id) = some u ∧
      u.hidden = true := by
    unfold hideVoucher
    rw [if_neg hguard]
    exact ⟨_, storeGet_storeSet_self _ _ _, rfl⟩
  obtain ⟨u, hu, huh⟩ := hput
  exact hidden_preserved ops (hideVoucher s hv now id).1 id u hu huh ht

/-- Witness for C3 (amended): hide at time 0, write at time 5, read at
time 10; the entry is still hidden. -/
theorem hide_then_ops_keep_hidden_witness :
    ∃ c, storeGet
        (applyOps "a" (hideVoucher [] [] 0 "a").1
          [CacheOp.write 5 { code := some "X" }, CacheOp.read 10])
        (cacheKey "a") = some c ∧ c.hidden = true :=
  hide_then_ops_keep_hidden [] [] 0 "a"
    [CacheOp.write 5 { code := some "X" }, CacheOp.read 10]
    (by decide) (by decide)

/-! ### Category visibility -/

/-- The persisted category-visibility object: a finite map from category key
to its hidden flag; a missing key reads as false, like a missing JS object
property (source variable hiddenCategories). -/
abbrev CatVis := List (String × Bool)

/-- Property read with falsy default on the visibility object. -/
def getCat (m : CatVis) (k : String) : Bool := (m.lookup k).getD false

/-- Property assignment on the visibility object. -/
def setCat (m : CatVis) (k : String) (b : Bool) : CatVis :=
  (k, b) :: m.filter (fun e => e.1 != k)

/-- Source function toggleCategoryVisibility: the two built-in categories are
mutually exclusive (hiding one forces the other visible); any other category
toggles independently. -/
def toggleCategoryVisibility (m : CatVis) (category : String) : CatVis :=
  if category == "grabfood" || category == "foodpanda" then
    if getCat m category then
      setCat m category false
    else
      let otherCategory := if category == "grabfood" then "foodpanda" else "grabfood"
      setCat (setCat m category true) otherCategory false
  else
    setCat m category (!(getCat m category))

/-- Source function resetCategoryVisibility: the visibility object becomes
the empty default. -/
def resetCategoryVisibility : CatVis := []

theorem getCat_setCat_self (m : CatVis) (k : String) (b : Bool) :
    getCat (setCat m k b) k = b := by
  simp [getCat, setCat, List.lookup_cons_self]

theorem getCat_setCat_ne (m : CatVis) (k k2 : String) (b : Bool) (h : k2 ≠ k) :
    getCat (setCat m k b) k2 = getCat m k2 := by
  simp only [getCat, setCat]
  rw [List.lookup_cons]
  rw [show (k2 == k) = false by simp [beq_iff_eq, h]]
  rw [lookup_filter_keep m k k2 h]

/-- Claim C7: after toggling a built-in category, at most one of the two
built-in categories is hidden; in particular toggling one of them to hidden
forces the other visible, whatever it was before. -/
theorem toggle_mutual_exclusion (m : CatVis) (cat : String)
    (hcat : cat = "grabfood" ∨ cat = "foodpanda") :
    ¬(getCat (toggleCategoryVisibility m cat) "grabfood" = true ∧
      getCat (toggleCategoryVisibility m cat) "foodpanda" = true) ∧
    (getCat m "grabfood" = false →
      getCat (toggleCategoryVisibility m "grabfood") "foodpanda" = false) ∧
    (getCat m "foodpanda" = false →
      getCat (toggleCategoryVisibility m "foodpanda") "grabfood" = false) := by
  refine ⟨?_, ?_, ?_⟩
  · rcases hcat with hc | hc
    · subst hc
      cases hg : getCat m "grabfood" with
      | true =>
          have htog : toggleCategoryVisibility m "grabfood" =
              setCat m "grabfood" false := by
            simp +decide [toggleCategoryVisibility, hg]
          rintro ⟨h1, _⟩
          rw [htog, getCat_setCat_self] at h1
          exact Bool.false_ne_true h1
      | false =>
          have htog : toggleCategoryVisibility m "grabfood" =
              setCat (setCat m "grabfood" true) "foodpanda" false := by
            simp +decide [toggleCategoryVisibility, hg]
          rintro ⟨_, h2⟩
          rw [htog, getCat_setCat_self] at h2
          exact Bool.false_ne_true h2
    · subst hc
      cases hg : getCat m "foodpanda" with
      | true =>
          have htog : toggleCategoryVisibility m "foodpanda" =
              setCat m "foodpanda" false := by
            simp +decide [toggleCategoryVisibility, hg]
          rintro ⟨_, h2⟩
          rw [htog, getCat_setCat_self] at h2
          exact Bool.false_ne_true h2
      | false =>
          have htog : toggleCategoryVisibility m "foodpanda" =
              setCat (setCat m "foodpanda" true) "grabfood" false := by
            simp +decide [toggleCategoryVisibility, hg]
          rintro ⟨h1, _⟩
          rw [htog, getCat_setCat_self] at h1
          exact Bool.false_ne_true h1
  · intro hg
    have htog : toggleCategoryVisibility m "grabfood" =
        setCat (setCat m "grabfood" true) "foodpanda" false := by
      simp +decide [toggleCategoryVisibility, hg]
    rw [htog, getCat_setCat_self]
  · intro hp
    have htog : toggleCategoryVisibility m "foodpanda" =
        setCat (setCat m "foodpanda" true) "grabfood" false := by
      simp +decide [toggleCategoryVisibility, hp]
    rw [htog, getCat_setCat_self]

/-- Witness for C7: hiding grabfood while foodpanda was hidden leaves
foodpanda visible afterward, on the concrete map where only foodpanda was
hidden. -/
theorem toggle_mutual_exclusion_witness :
    ¬(getCat (toggleCategoryVisibility [("foodpanda", true)] "grabfood")
          "grabfood" = true ∧
      getCat (toggleCategoryVisibility [("foodpanda", true)] "grabfood")
          "foodpanda" = true) ∧
    (getCat [("foodpanda", true)] "grabfood" = false →
      getCat (toggleCategoryVisibility [("foodpanda", true)] "grabfood")
          "foodpanda" = false) ∧
    (getCat [("foodpanda", true)] "foodpanda" = false →
      getCat (toggleCategoryVisibility [("foodpanda", true)] "foodpanda")
          "grabfood" = false) :=
  toggle_mutual_exclusion [("foodpanda", true)] "grabfood" (Or.inl rfl)

/-! ### Forced refresh -/

/-- The app state the forced refresh touches: the cache namespace of web
storage and the category-visibility object. -/
structure AppState where
  cache : CacheStore
  visibility : CatVis

/-- Source function forceRefresh: purge the cache namespace, reset the
category visibility, then run the fetch cycle on the purged state. -/
def forceRefresh (fetchCycle : AppState → AppState) (st : AppState) : AppState :=
  fetchCycle { cache := clearVoucherCache st.cache,
               visibility := resetCategoryVisibility }

theorem isPrefixOf_append_self (l t : List Char) :
    List.isPrefixOf l (l ++ t) = true := by
  induction l with
  | nil => simp
  | cons a as ih =>
      rw [List.cons_append, List.isPrefixOf_cons₂]
      simp [ih]

theorem cacheKey_startsWith (id : String) :
    jsStartsWith (cacheKey id) CACHE_KEY = true := by
  show List.isPrefixOf CACHE_KEY.data (CACHE_KEY ++ ("-" ++ id)).data = true
  rw [String.data_append]
  exact isPrefixOf_append_self _ _

theorem lookup_clear_none (s : CacheStore) (k : String)
    (hk : jsStartsWith k CACHE_KEY = true) :
    (clearVoucherCache s).lookup k = none := by
  induction s with
  | nil => rfl
  | cons e t ih =>
      obtain ⟨k1, v1⟩ := e
      unfold clearVoucherCache at ih ⊢
      rw [List.filter_cons]
      cases hp : jsStartsWith k1 CACHE_KEY with
      | true => simpa [hp] using ih
      | false =>
          have hne : (k == k1) = false := by
            simp only [beq_eq_false_iff_ne, ne_eq]
            intro hkk
            rw [hkk] at hk
            rw [hk] at hp
            exact Bool.false_ne_true hp.symm
          simp only [hp, Bool.not_false, if_true]
          rw [List.lookup_cons, hne]
          exact ih

/-- Claim C4: a forced refresh runs the fetch cycle on the purged state: the
cache namespace holds no entry for any article id any more (and is empty
whenever every stored key was under the namespace, as with five entries of
which three were hidden), and the category-visibility map is the empty
default. -/
theorem force_refresh_purges (fetchCycle : AppState → AppState) (st : AppState) :
    forceRefresh fetchCycle st =
      fetchCycle { cache := clearVoucherCache st.cache,
                   visibility := resetCategoryVisibility } ∧
    (∀ id, storeGet (clearVoucherCache st.cache) (cacheKey id) = none) ∧
    ((∀ e ∈ st.cache, jsStartsWith e.1 CACHE_KEY = true) →
      clearVoucherCache st.cache = []) := by
  refine ⟨rfl, ?_, ?_⟩
  · intro id
    exact lookup_clear_none st.cache (cacheKey id) (cacheKey_startsWith id)
  · intro hall
    unfold clearVoucherCache
    rw [List.filter_eq_nil_iff]
    intro e he
    simp [hall e he]

/-- Witness for C4: five cache entries, three of them hidden, and a
visibility map hiding grabfood reach zero cache entries and the empty
visibility map; the fetch cycle then runs on the purged state. -/
theorem force_refresh_purges_witness :
    forceRefresh (fun st2 => st2)
      { cache := [(cacheKey "a", { code := some "A", expire := 9, hidden := true }),
                  (cacheKey "b", { code := some "B", expire := 9, hidden := true }),
                  (cacheKey "c", { code := some "C", expire := 9, hidden := true }),
                  (cacheKey "d", { code := some "D", expire := 9, hidden := false }),
                  (cacheKey "e", { code := some "E", expire := 9, hidden := false })],
        visibility := [("grabfood", true)] } =
      { cache := [], visibility := [] } := by
  have h := force_refresh_purges (fun st2 => st2)
      { cache := [(cacheKey "a", { code := some "A", expire := 9, hidden := true }),
                  (cacheKey "b", { code := some "B", expire := 9, hidden := true }),
                  (cacheKey "c", { code := some "C", expire := 9, hidden := true }),
                  (cacheKey "d", { code := some "D", expire := 9, hidden := false }),
                  (cacheKey "e", { code := some "E", expire := 9, hidden := false })],
        visibility := [("grabfood", true)] }
  rw [h.1, h.2.2 (by decide)]
  rfl

/-! ### Articles, custom vouchers, and the combined display list -/

/-- One scraped candidate (source interface DiscountArticle; the site-A
variant has no cta field on articles and leaves it unset). -/
structure DiscountArticle where
  id : String
  dataType : String
  title : Option String := none
  content : Option String := none
  couponCode : Option String := none
  cta : Option String := none
  headline : Option String := none
  description : Option String := none
  merchantName : Option String := none
  deriving DecidableEq

/-- One user-authored voucher (source interface CustomVoucher; the site-A
variant has no cta field and ignores it). -/
structure CustomVoucher where
  id : String
  code : String
  description : String
  cta : String := ""
  merchantName : Option String := none
  deriving DecidableEq

/-- One element of the combined display list, after the spread-and-override
mapping applied to custom vouchers and articles. -/
structure DisplayVoucher where
  id : String
  isCustom : Bool
  voucherCode : Option String
  cta : Option String := none
  headline : Option String := none
  description : Option String := none
  merchantName : Option String := none
  deriving DecidableEq

/-- Some suffix of the second list starts with the first list. -/
def listContainsSub (sub : List Char) : List Char → Bool
  | [] => List.isPrefixOf sub []
  | c :: rest => List.isPrefixOf sub (c :: rest) || listContainsSub sub rest

/-- Substring containment test on character data; models the JS
String.includes used for merchant-to-category matching. -/
def jsIncludes (s sub : String) : Bool := listContainsSub sub.data s.data

/-- ASCII lowercasing on character data; models the JS toLowerCase on the
ASCII merchant names the code compares. -/
def jsToLower (s : String) : String := String.mk (s.data.map Char.toLower)

/-- Optional-chained lowercase substring test, false on a missing merchant
name like the JS optional chain. -/
def optLowerIncludes (m : Option String) (sub : String) : Bool :=
  match m with
  | none => false
  | some s => jsIncludes (jsToLower s) sub

/-- Merchant matches the grabfood category in the site-B variant (either
needle). -/
def matchesGrabB (m : Option String) : Bool :=
  optLowerIncludes m "grabfood" || optLowerIncludes m "grab"

/-- Merchant matches the foodpanda category (both variants). -/
def matchesFoodpanda (m : Option String) : Bool := optLowerIncludes m "foodpanda"

/-- Category-visibility test of the site-B variant: grab merchants follow the
grabfood flag, foodpanda merchants the foodpanda flag, all others are always
visible. -/
def categoryVisibleB (hc : CatVis) (m : Option String) : Bool :=
  if matchesGrabB m then !(getCat hc "grabfood")
  else if matchesFoodpanda m then !(getCat hc "foodpanda")
  else true

/-- Site-B reactive filteredDiscountArticles: drops articles whose coupon
code is a sentinel and articles whose id is in the hidden list. -/
def filteredDiscountArticlesB (arts : List DiscountArticle)
    (hiddenVouchers : List String) : List DiscountArticle :=
  arts.filter (fun a =>
    !(EXCLUDED_CODES.contains (a.couponCode.getD "")) &&
    !(hiddenVouchers.contains a.id))

/-- Site-B display mapping of a custom voucher. -/
def customToDisplayB (v : CustomVoucher) : DisplayVoucher :=
  { id := v.id, isCustom := true, voucherCode := some v.code,
    cta := some v.cta, headline := none,
    description := some v.description, merchantName := v.merchantName }

/-- Site-B display mapping of a scraped article. -/
def articleToDisplayB (a : DiscountArticle) : DisplayVoucher :=
  { id := a.id, isCustom := false, voucherCode := a.couponCode,
    cta := a.cta, headline := a.headline,
    description := a.description, merchantName := a.merchantName }

/-- Site-B reactive combinedVouchers: category-filtered custom vouchers in
stored order, then the hidden- and sentinel-filtered, category-filtered
scraped articles in extraction order. -/
def combinedVouchersB (customs : List CustomVoucher) (arts : List DiscountArticle)
    (hc : CatVis) (hiddenVouchers : List String) : List DisplayVoucher :=
  (customs.filter (fun v => categoryVisibleB hc v.merchantName)).map customToDisplayB ++
  ((filteredDiscountArticlesB arts hiddenVouchers).filter
      (fun a => categoryVisibleB hc a.merchantName)).map articleToDisplayB

/-- Modelled from the claim wording for C6: both sublists filtered by the
hidden state as well as by the category overlay before concatenation. -/
def combinedClaimedC6 (customs : List CustomVoucher) (arts : List DiscountArticle)
    (hc : CatVis) (hiddenVouchers : List String) : List DisplayVoucher :=
  (customs.filter (fun v => !(hiddenVouchers.contains v.id) &&
      categoryVisibleB hc v.merchantName)).map customToDisplayB ++
  (arts.filter (fun a => !(EXCLUDED_CODES.contains (a.couponCode.getD "")) &&
      !(hiddenVouchers.contains a.id) &&
      categoryVisibleB hc a.merchantName)).map articleToDisplayB

/-- Modelled from the amended claim for C6: custom vouchers are filtered by
the category overlay only; scraped vouchers are filtered by sentinel
exclusion, hidden state, and the category overlay; each sublist keeps its
original order and the two are concatenated custom-first. -/
def combinedAmendedC6 (customs : List CustomVoucher) (arts : List DiscountArticle)
    (hc : CatVis) (hiddenVouchers : List String) : List DisplayVoucher :=
  (customs.map customToDisplayB).filter
      (fun d => categoryVisibleB hc d.merchantName) ++
  (arts.map articleToDisplayB).filter (fun d =>
      !(EXCLUDED_CODES.contains (d.voucherCode.getD "")) &&
      !(hiddenVouchers.contains d.id) &&
      categoryVisibleB hc d.merchantName)

/-- Counterexample for C6 as stated: with one custom voucher whose id is in
the hidden set, the real combined list still shows it, while the claimed
hidden-filtered combination is empty, so the claimed description disagrees
with the code. -/
theorem combined_hidden_custom_counterexample :
    combinedVouchersB [{ id := "x", code := "C", description := "d", cta := "t" }]
        [] [] ["x"] =
      [{ id := "x", isCustom := true, voucherCode := some "C",
         cta := some "t", description := some "d" }] ∧
    combinedClaimedC6 [{ id := "x", code := "C", description := "d", cta := "t" }]
        [] [] ["x"] = [] := by
  constructor
  · decide
  · decide

/-- Claim C6 (amended): the combined display list is exactly the custom
vouchers in stored order filtered by the category overlay only, followed by
the scraped vouchers in extraction order filtered by sentinel exclusion,
hidden state, and the category overlay; no other reordering or interleaving
occurs. -/
theorem combined_eq_amended (customs : List CustomVoucher)
    (arts : List DiscountArticle) (hc : CatVis) (hiddenVouchers : List String) :
    combinedVouchersB customs arts hc hiddenVouchers =
      combinedAmendedC6 customs arts hc hiddenVouchers := by
  unfold combinedVouchersB combinedAmendedC6 filteredDiscountArticlesB
  rw [List.filter_map, List.filter_map, List.filter_filter]
  congr 1
  apply congrArg
  apply List.filter_congr
  intro a _
  simp only [Function.comp, articleToDisplayB]
  cases hE : EXCLUDED_CODES.contains (a.couponCode.getD "") <;>
    cases hH : hiddenVouchers.contains a.id <;>
      cases hV : categoryVisibleB hc a.merchantName <;> rfl

/-! ### Site-A extraction pipeline -/

/-- JS falsy-or on an optional string: a missing or empty value falls back to
the default. -/
def jsOrStr (o : Option String) (d : String) : String :=
  match o with
  | some s => if s == "" then d else s
  | none => d

/-- One matched element carrying the clipboard code attribute, with the text
the fallback selector chains would resolve for title and description. -/
structure ClipElem where
  clipboardText : String
  titleText : Option String := none
  contentText : Option String := none
  deriving DecidableEq

/-- Site-A extraction loop over the elements carrying the code attribute:
elements with an empty code are skipped, every kept element becomes an
article with a synthesized position-based id, the code attribute as coupon
code, and the site-derived merchant name. -/
def extractClipboardVouchers (grabfoodSite : Bool) (elems : List ClipElem) :
    List DiscountArticle :=
  elems.enum.filterMap (fun ie =>
    if ie.2.clipboardText != "" then
      some { id := "voucher-" ++ (if grabfoodSite then "grabfood" else "foodpanda")
                     ++ "-" ++ toString ie.1,
             dataType := "code",
             title := some (jsOrStr ie.2.titleText "No title found"),
             content := some (jsOrStr ie.2.contentText "No description found"),
             couponCode := some ie.2.clipboardText,
             merchantName := some (if grabfoodSite then "GrabFood" else "FoodPanda") }
    else none)

/-- Site-A reactive filteredDiscountArticles: drops only articles whose
coupon code is in the hidden-code list. -/
def filteredDiscountArticlesA (arts : List DiscountArticle)
    (hiddenVouchers : List String) : List DiscountArticle :=
  arts.filter (fun a => !(hiddenVouchers.contains (a.couponCode.getD "")))

/-- Merchant matches the grabfood category in the site-A variant (single
needle). -/
def matchesGrabA (m : Option String) : Bool := optLowerIncludes m "grabfood"

/-- Category-visibility test of the site-A variant. -/
def categoryVisibleA (hc : CatVis) (m : Option String) : Bool :=
  if matchesGrabA m then !(getCat hc "grabfood")
  else if matchesFoodpanda m then !(getCat hc "foodpanda")
  else true

/-- Site-A display mapping of a custom voucher. -/
def customToDisplayA (v : CustomVoucher) : DisplayVoucher :=
  { id := v.id, isCustom := true, voucherCode := some v.code,
    description := some v.description, merchantName := v.merchantName }

/-- Site-A display mapping of a scraped article: the extracted content text
becomes the displayed description. -/
def articleToDisplayA (a : DiscountArticle) : DisplayVoucher :=
  { id := a.id, isCustom := false, voucherCode := a.couponCode,
    headline := a.headline, description := a.content,
    merchantName := a.merchantName }

/-- Site-A reactive combinedVouchers. -/
def combinedVouchersA (customs : List CustomVoucher) (arts : List DiscountArticle)
    (hc : CatVis) (hiddenVouchers : List String) : List DisplayVoucher :=
  (customs.filter (fun v => categoryVisibleA hc v.merchantName)).map customToDisplayA ++
  ((filteredDiscountArticlesA arts hiddenVouchers).filter
      (fun a => categoryVisibleA hc a.merchantName)).map articleToDisplayA

/-- The actionable code of one displayed voucher: its voucherCode when
truthy, as guarded by the template before rendering the copy button. -/
def actionableCode (v : DisplayVoucher) : Option String :=
  match v.voucherCode with
  | some c => if c != "" then some c else none
  | none => none

/-- The codes the template offers as actionable copy buttons: one per
displayed voucher whose voucherCode is truthy. -/
def shownActionableCodes (l : List DisplayVoucher) : List String :=
  l.filterMap actionableCode

/-- Counterexample for C5 as stated: feeding the site-A pipeline, whose
extractor reads the code attribute, the three elements of the scenario
yields two actionable codes, including the sentinel NoCodeRequired, because
the site-A variant has no sentinel exclusion anywhere. -/
theorem sentinel_shown_counterexample :
    shownActionableCodes
        (combinedVouchersA []
          (extractClipboardVouchers true
            [{ clipboardText := "SAVE10" }, { clipboardText := "" },
             { clipboardText := "NoCodeRequired" }])
          [] []) = ["SAVE10", "NoCodeRequired"] := by
  decide

/-- Claim C5 (amended): on the scenario input the site-A pipeline shows
exactly the actionable codes SAVE10 and NoCodeRequired: the empty code is
dropped at extraction and an empty code is never shown as actionable in any
display list, but the sentinel exclusion exists only in the site-B variant,
so NoCodeRequired is shown by the site-A pipeline. -/
theorem extractor_scenario_amended :
    shownActionableCodes
        (combinedVouchersA []
          (extractClipboardVouchers true
            [{ clipboardText := "SAVE10" }, { clipboardText := "" },
             { clipboardText := "NoCodeRequired" }])
          [] []) = ["SAVE10", "NoCodeRequired"] ∧
    ∀ l : List DisplayVoucher, (shownActionableCodes l).contains "" = false := by
  refine ⟨by decide, ?_⟩
  intro l
  induction l with
  | nil => rfl
  | cons v t ih =>
      unfold shownActionableCodes at ih ⊢
      rw [List.filterMap_cons]
      cases hac : actionableCode v with
      | none => exact ih
      | some c =>
          have hc : (c != "") = true := by
            unfold actionableCode at hac
            cases hvc : v.voucherCode with
            | none =>
                rw [hvc] at hac
                exact Option.noConfusion hac
            | some c0 =>
                rw [hvc] at hac
                have hac2 : (if (c0 != "") = true then some c0 else none) =
                    some c := hac
                by_cases hb : (c0 != "") = true
                · rw [if_pos hb] at hac2
                  rw [← Option.some.inj hac2]
                  exact hb
                · rw [if_neg hb] at hac2
                  exact Option.noConfusion hac2
          rw [List.contains_cons]
          have hce : ("" == c) = false := by
            simp only [beq_eq_false_iff_ne, ne_eq]
            intro hh
            rw [← hh] at hc
            simp at hc
          rw [hce]
          simpa using ih

/-! ### Detail fetch through the remote gateway -/

/-- The cta object of a detail response. -/
structure CtaData where
  heading : String
  value : String
  deriving DecidableEq

/-- One decoded detail response body; a missing cta object makes the decode
throw in the source, every other field has a fallback (the optional chain on
the merchant object is collapsed into one optional name). -/
structure ApiData where
  cta : Option CtaData := none
  code : Option String := none
  headline : Option String := none
  title : Option String := none
  description : Option String := none
  content : Option String := none
  merchantName : Option String := none
  deriving DecidableEq

/-- Outcome of one proxied detail request. -/
inductive ApiResponse where
  | httpError (status : Nat)
  | networkError
  | malformedJson
  | ok (data : ApiData)
  deriving DecidableEq

/-- Strips every non-alphanumeric character; models the JS replace with the
character-class regex used on ids and codes. -/
def cleanVoucherCode (s : String) : String :=
  String.mk (s.data.filter Char.isAlphanum)

/-- Whitespace trim on character data; models the JS String.trim. -/
def jsTrim (s : String) : String :=
  String.mk (((s.data.dropWhile Char.isWhitespace).reverse.dropWhile
      Char.isWhitespace).reverse)

/-- The decode step of fetchVoucherCode on a 2xx JSON body: none models the
thrown field access on a missing cta object (caught by the enclosing catch);
otherwise the record is built with the fallback defaults, and the coupon code
is the cleaned code unless the raw code is falsy or the cleaned code is an
excluded sentinel. -/
def decodeVoucherData (data : ApiData) : Option VoucherData :=
  match data.cta with
  | none => none
  | some ctaData =>
      some { code :=
               match data.code with
               | some raw =>
                   if raw != "" then
                     if shouldExcludeCode (cleanVoucherCode raw) then none
                     else some (cleanVoucherCode raw)
                   else none
               | none => none,
             cta := some (jsTrim (ctaData.heading ++ " " ++ ctaData.value)),
             headline := some (jsOrStr data.headline
                (jsOrStr data.title "No headline available")),
             description := some (jsOrStr data.description
                (jsOrStr data.content "No description available")),
             merchantName := some (jsOrStr data.merchantName "Unknown merchant") }

/-- What one issued remote request yields: none for a non-2xx status, a
network error, a malformed body, or a failed decode; the decoded record
otherwise. -/
def fetchRemoteOutcome (resp : ApiResponse) : Option VoucherData :=
  match resp with
  | ApiResponse.httpError _ => none
  | ApiResponse.networkError => none
  | ApiResponse.malformedJson => none
  | ApiResponse.ok data => decodeVoucherData data

/-- Source function fetchVoucherCode: cache first; on a miss one remote
request (counted in the third component) whose failure in any form yields
none, and whose success is decoded, cached, and returned. -/
def fetchVoucherCode (s : CacheStore) (now : Nat) (remote : String → ApiResponse)
    (id : String) : Option VoucherData × CacheStore × Nat :=
  match (getCachedVoucherData s now id).1 with
  | some cachedData => (some cachedData, (getCachedVoucherData s now id).2, 0)
  | none =>
      match fetchRemoteOutcome (remote id) with
      | none => (none, (getCachedVoucherData s now id).2, 1)
      | some result =>
          (some result,
           setCachedVoucherData ((getCachedVoucherData s now id).2) now id result,
           1)

/-- One iteration of the detail-resolution loop of the refresh cycle: on a
cache hit the splice happens with no request and no delay; on a miss the
detail fetch runs and the fixed inter-request delay follows (third component
counts delays, second counts remote requests). -/
def resolveDetail (s : CacheStore) (now : Nat) (remote : String → ApiResponse)
    (id : String) : CacheStore × Nat × Nat :=
  match (getCachedVoucherData s now id).1 with
  | some _ => ((getCachedVoucherData s now id).2, 0, 0)
  | none =>
      ((fetchVoucherCode ((getCachedVoucherData s now id).2) now remote id).2.1,
       (fetchVoucherCode ((getCachedVoucherData s now id).2) now remote id).2.2,
       1)

/-- A read that came back absent leaves the store in a state where an
immediate identical read is still absent. -/
theorem get_after_get_none (s : CacheStore) (now : Nat) (id : String)
    (h : (getCachedVoucherData s now id).1 = none) :
    (getCachedVoucherData ((getCachedVoucherData s now id).2) now id).1 = none := by
  unfold getCachedVoucherData at h ⊢
  cases hg : storeGet s (cacheKey id) with
  | none => simp [hg]
  | some c =>
      rw [hg] at h
      by_cases hexp : now > c.expire
      · simp [hg, hexp, storeGet_storeRemove_self]
      · exfalso
        have h2 : (if now > c.expire then
            ((none : Option VoucherData), storeRemove s (cacheKey id))
            else (some c.toVoucherData, s)).1 = none := h
        rw [if_neg hexp] at h2
        exact Option.noConfusion h2

/-- Claim C8: when the cache holds an unexpired entry for the id at the time
the detail-resolution step processes it, the step performs zero remote
requests and zero delays and leaves the store unchanged; on a cache miss it
performs exactly one remote request followed by exactly one delay. -/
theorem detail_cache_hit_short_circuit (s : CacheStore) (now : Nat)
    (remote : String → ApiResponse) (id : String) :
    ((getCachedVoucherData s now id).1.isSome = true →
      resolveDetail s now remote id = (s, 0, 0)) ∧
    ((getCachedVoucherData s now id).1 = none →
      (resolveDetail s now remote id).2.1 = 1 ∧
      (resolveDetail s now remote id).2.2 = 1) := by
  constructor
  · intro hs
    obtain ⟨d, hd⟩ := Option.isSome_iff_exists.mp hs
    have hstore : (getCachedVoucherData s now id).2 = s := by
      unfold getCachedVoucherData at hd ⊢
      cases hg : storeGet s (cacheKey id) with
      | none =>
          rw [hg] at hd
      | some c =>
          rw [hg] at hd
          have hd2 : (if now > c.expire then
              ((none : Option VoucherData), storeRemove s (cacheKey id))
              else (some c.toVoucherData, s)).1 = some d := hd
          by_cases hexp : now > c.expire
          · exfalso
            rw [if_pos hexp] at hd2
            exact Option.noConfusion hd2
          · show (if now > c.expire then
                ((none : Option VoucherData), storeRemove s (cacheKey id))
                else (some c.toVoucherData, s)).2 = s
            rw [if_neg hexp]
    unfold resolveDetail
    rw [hd, hstore]
  · intro hm
    have hm2 := get_after_get_none s now id hm
    have hfc : (fetchVoucherCode ((getCachedVoucherData s now id).2) now remote
        id).2.2 = 1 := by
      unfold fetchVoucherCode
      rw [hm2]
      cases fetchRemoteOutcome (remote id) with
      | none => rfl
      | some result => rfl
    constructor
    · unfold resolveDetail
      rw [hm]
      exact hfc
    · unfold resolveDetail
      rw [hm]

/-- Witness for C8: a concrete unexpired entry is resolved with zero remote
requests and zero delays; with an empty cache the same resolution performs
one remote request and one delay. -/
theorem detail_cache_hit_short_circuit_witness :
    resolveDetail [(cacheKey "a", { code := some "C", expire := 100 })] 10
        (fun _ => ApiResponse.networkError) "a" =
      ([(cacheKey "a", { code := some "C", expire := 100 })], 0, 0) ∧
    (resolveDetail [] 10 (fun _ => ApiResponse.networkError) "a").2.1 = 1 ∧
    (resolveDetail [] 10 (fun _ => ApiResponse.networkError) "a").2.2 = 1 := by
  refine ⟨(detail_cache_hit_short_circuit
      [(cacheKey "a", { code := some "C", expire := 100 })] 10
      (fun _ => ApiResponse.networkError) "a").1 (by decide), ?_, ?_⟩
  · exact ((detail_cache_hit_short_circuit [] 10
        (fun _ => ApiResponse.networkError) "a").2 (by decide)).1
  · exact ((detail_cache_hit_short_circuit [] 10
        (fun _ => ApiResponse.networkError) "a").2 (by decide)).2

/-- Every successful decode yields a record whose code is the cleaned code,
or null when the raw code is falsy or the cleaned code is a sentinel. -/
theorem decode_some (data : ApiData) (ctaData : CtaData)
    (hcta : data.cta = some ctaData) :
    ∃ r, decodeVoucherData data = some r ∧
      r.code = (match data.code with
                | some raw =>
                    if raw != "" && !(shouldExcludeCode (cleanVoucherCode raw))
                    then some (cleanVoucherCode raw) else none
                | none => none) := by
  unfold decodeVoucherData
  rw [hcta]
  refine ⟨_, rfl, ?_⟩
  cases hdc : data.code with
  | none => rfl
  | some raw =>
      cases hr : (raw != "") with
      | false => simp [hr]
      | true =>
          cases hx : shouldExcludeCode (cleanVoucherCode raw) with
          | true => simp [hr, hx]
          | false => simp [hr, hx]

/-- Claim C9: on a cache miss the detail fetch swallows every failure shape
(non-2xx status, network error, malformed JSON body, missing cta object) and
returns none rather than propagating it; on success it returns a record
whose code is the cleaned code, or null when the raw code is falsy or the
cleaned code is an excluded sentinel. -/
theorem detail_fetch_best_effort (s : CacheStore) (now : Nat)
    (remote : String → ApiResponse) (id : String)
    (hmiss : (getCachedVoucherData s now id).1 = none) :
    (∀ st, remote id = ApiResponse.httpError st →
        (fetchVoucherCode s now remote id).1 = none) ∧
    (remote id = ApiResponse.networkError →
        (fetchVoucherCode s now remote id).1 = none) ∧
    (remote id = ApiResponse.malformedJson →
        (fetchVoucherCode s now remote id).1 = none) ∧
    (∀ data, remote id = ApiResponse.ok data → data.cta = none →
        (fetchVoucherCode s now remote id).1 = none) ∧
    (∀ data ctaData, remote id = ApiResponse.ok data → data.cta = some ctaData →
      ∃ r, (fetchVoucherCode s now remote id).1 = some r ∧
        r.code = (match data.code with
                  | some raw =>
                      if raw != "" && !(shouldExcludeCode (cleanVoucherCode raw))
                      then some (cleanVoucherCode raw) else none
                  | none => none)) := by
  refine ⟨?_, ?_, ?_, ?_, ?_⟩
  · intro st h
    have hout : fetchRemoteOutcome (remote id) = none := by
      rw [h]
      rfl
    unfold fetchVoucherCode
    rw [hmiss, hout]
  · intro h
    have hout : fetchRemoteOutcome (remote id) = none := by
      rw [h]
      rfl
    unfold fetchVoucherCode
    rw [hmiss, hout]
  · intro h
    have hout : fetchRemoteOutcome (remote id) = none := by
      rw [h]
      rfl
    unfold fetchVoucherCode
    rw [hmiss, hout]
  · intro data h hcta
    have hdec : decodeVoucherData data = none := by
      unfold decodeVoucherData
      rw [hcta]
    have hout : fetchRemoteOutcome (remote id) = none := by
      rw [h]
      exact hdec
    unfold fetchVoucherCode
    rw [hmiss, hout]
  · intro data ctaData h hcta
    obtain ⟨r, hdec, hcode⟩ := decode_some data ctaData hcta
    have hout : fetchRemoteOutcome (remote id) = some r := by
      rw [h]
      exact hdec
    unfold fetchVoucherCode
    rw [hmiss, hout]
    exact ⟨r, rfl, hcode⟩

/-- Witness for C9: on an empty cache a decodable response with raw code
SA-VE10! yields a record whose code is the cleaned SAVE10. -/
theorem detail_fetch_best_effort_witness :
    ∃ r, (fetchVoucherCode [] 0
        (fun _ => ApiResponse.ok
          { cta := some { heading := "Use", value := "now" },
            code := some "SA-VE10!" }) "a").1 = some r ∧
      r.code = some "SAVE10" := by
  obtain ⟨r, hr, hcode⟩ :=
    (detail_fetch_best_effort [] 0
      (fun _ => ApiResponse.ok
        { cta := some { heading := "Use", value := "now" },
          code := some "SA-VE10!" }) "a" (by decide)).2.2.2.2
      { cta := some { heading := "Use", value := "now" },
        code := some "SA-VE10!" }
      { heading := "Use", value := "now" } rfl rfl
  refine ⟨r, hr, ?_⟩
  rw [hcode]
  decide

/-! ### Claim C10: the effect of hiding one voucher -/

/-- Counterexample for C10 as stated: when the id is already in the hidden
list, hideVoucher changes nothing, so with an empty store no cache entry
with a set hidden flag and renewed expiry is left behind. -/
theorem hide_already_hidden_counterexample :
    hideVoucher [] ["a"] 0 "a" = ([], ["a"]) ∧
    storeGet (hideVoucher [] ["a"] 0 "a").1 (cacheKey "a") = none := by
  constructor
  · decide
  · decide

/-- Claim C10 (amended): when the id is not already in the hidden list,
hideVoucher leaves an entry with hidden set and the expiry renewed to the
call time plus two months, appends the id to the hidden list, keeps all
payload fields of a pre-existing unexpired entry, and synthesizes the
minimal null-code payload when no entry existed or the existing entry had
expired; when the id is already in the hidden list it is a no-op. -/
theorem hide_voucher_effect (s : CacheStore) (hv : List String) (now : Nat)
    (id : String) (hnew : hv.contains id = false) :
    ∃ c, storeGet (hideVoucher s hv now id).1 (cacheKey id) = some c ∧
      c.hidden = true ∧
      c.expire = now + CACHE_DURATION ∧
      (hideVoucher s hv now id).2 = hv ++ [id] ∧
      (∀ p, storeGet s (cacheKey id) = some p → ¬ now > p.expire →
        c.toVoucherData = p.toVoucherData) ∧
      ((∀ p, storeGet s (cacheKey id) = some p → now > p.expire) →
        c.toVoucherData = { code := none }) := by
  have hguard : ¬ (hv.contains id = true) := by
    rw [hnew]
    exact Bool.false_ne_true
  cases hg : storeGet s (cacheKey id) with
  | none =>
      have hfull : getCachedVoucherDataFull s now id = (none, s) := by
        simp [getCachedVoucherDataFull, hg]
      have heq : hideVoucher s hv now id =
          (storeSet s (cacheKey id)
            { code := none, expire := now + CACHE_DURATION, hidden := true },
           hv ++ [id]) := by
        unfold hideVoucher
        rw [if_neg hguard]
        simp [hfull]
      refine ⟨{ code := none, expire := now + CACHE_DURATION, hidden := true },
        ?_, rfl, rfl, ?_, ?_, ?_⟩
      · rw [heq]
        exact storeGet_storeSet_self _ _ _
      · rw [heq]
      · intro p hp
        exact absurd hp (fun hh => Option.noConfusion hh)
      · intro _
        rfl
  | some p0 =>
      by_cases hexp : now > p0.expire
      · have hfull : getCachedVoucherDataFull s now id =
            (none, storeRemove s (cacheKey id)) := by
          simp [getCachedVoucherDataFull, hg, hexp]
        have heq : hideVoucher s hv now id =
            (storeSet (storeRemove s (cacheKey id)) (cacheKey id)
              { code := none, expire := now + CACHE_DURATION, hidden := true },
             hv ++ [id]) := by
          unfold hideVoucher
          rw [if_neg hguard]
          simp [hfull]
        refine ⟨{ code := none, expire := now + CACHE_DURATION, hidden := true },
          ?_, rfl, rfl, ?_, ?_, ?_⟩
        · rw [heq]
          exact storeGet_storeSet_self _ _ _
        · rw [heq]
        · intro p hp hnexp
          have hpp : p0 = p := Option.some.inj hp
          subst hpp
          exact absurd hexp hnexp
        · intro _
          rfl
      · have hfull : getCachedVoucherDataFull s now id = (some p0, s) := by
          simp [getCachedVoucherDataFull, hg, hexp]
        have heq : hideVoucher s hv now id =
            (storeSet s (cacheKey id)
              { toVoucherData := p0.toVoucherData,
                expire := now + CACHE_DURATION, hidden := true },
             hv ++ [id]) := by
          unfold hideVoucher
          rw [if_neg hguard]
          simp [hfull]
        refine ⟨{ toVoucherData := p0.toVoucherData,
                  expire := now + CACHE_DURATION, hidden := true },
          ?_, rfl, rfl, ?_, ?_, ?_⟩
        · rw [heq]
          exact storeGet_storeSet_self _ _ _
        · rw [heq]
        · intro p hp _
          have hpp : p0 = p := Option.some.inj hp
          rw [← hpp]
        · intro hall
          exact absurd (hall p0 rfl) hexp

/-- Witness for C10 (amended): hiding a fresh id on an empty store leaves an
entry with hidden set and the renewed expiry. -/
theorem hide_voucher_effect_witness :
    ∃ c, storeGet (hideVoucher [] [] 3 "a").1 (cacheKey "a") = some c ∧
      c.hidden = true ∧ c.expire = 3 + CACHE_DURATION := by
  obtain ⟨c, h1, h2, h3, _⟩ := hide_voucher_effect [] [] 3 "a" (by decide)
  exact ⟨c, h1, h2, h3⟩
